import Mathlib

/-!
Verification of the STAR-TH statistical engine (src/modules/anova.py and
src/modules/data_manager.py) against its specification.

The tabular data model mirrors a pandas DataFrame as far as the verified
functions inspect it: a list of named columns, each column carrying a dtype
flag (numeric or not) and a list of cells, where a cell is either a null
(pandas NaN in an object/float column), a number, or a string.

The ANOVA computations are embedded over exact rationals; square roots and
the Student-t / F distribution quantities live over the reals.  The
statsmodels/scipy calls (`ols`, `anova_lm`, `stats.t.ppf`, the F survival
function) are not part of the repository's source; they are modelled from
the specification where a claim depends on them, as noted on each such
definition.
-/

namespace StarTH

/-- A single cell of a tabular column: null (pandas missing value), a
numeric value, or a string label. -/
inductive Cell where
  | null : Cell
  | num : ℚ → Cell
  | str : String → Cell
deriving DecidableEq

/-- A pandas column: its dtype (numeric or not, mirroring
`pd.api.types.is_numeric_dtype`) and its cells. -/
structure Column where
  dtypeNumeric : Bool
  cells : List Cell
deriving DecidableEq

/-- A pandas DataFrame as the verified code inspects it: an ordered
association list of column names to columns. -/
structure DataFrame where
  colData : List (String × Column)
deriving DecidableEq

/-- The column names of a DataFrame (`df.columns`). -/
def DataFrame.columns (df : DataFrame) : List String :=
  df.colData.map Prod.fst

/-- Column lookup, `df[c]`.  The Python code raises `KeyError` on a missing
name; theorems that depend on a column therefore carry the membership
hypothesis `c ∈ df.columns`, and the default value below is never relied
upon. -/
def DataFrame.get (df : DataFrame) (c : String) : Column :=
  ((df.colData.find? (fun p => p.1 == c)).map Prod.snd).getD ⟨false, []⟩

/-- The row count `len(df)`: the length of the first column (all columns of
a DataFrame have equal length). -/
def DataFrame.nRows (df : DataFrame) : Nat :=
  ((df.colData.head?).map (fun p => p.2.cells.length)).getD 0

/-- Number of distinct non-null values of a column, `series.nunique()`
(pandas excludes NaN from the count by default). -/
def Column.nunique (c : Column) : Nat :=
  ((c.cells.filter (fun x => x ≠ Cell.null)).dedup).length

/-- Count of null cells in a column, `series.isnull().sum()`. -/
def Column.nullCount (c : Column) : Nat :=
  c.cells.countP (fun x => x = Cell.null)

/- ------------------------------------------------------------------ -/
/- data_manager.validate_rcbd_data                                      -/
/- ------------------------------------------------------------------ -/

/-- Message appended by `validate_rcbd_data` for a missing column
(data_manager.py line 53). -/
def missingColMsg (c : String) : String :=
  "❌ คอลัมน์ '" ++ c ++ "' ไม่พบในข้อมูล"

/-- Message appended for a column with null cells (line 62). -/
def nullColMsg (c : String) (n : Nat) : String :=
  "⚠️ คอลัมน์ '" ++ c ++ "' มีค่าว่าง " ++ toString n ++ " ตำแหน่ง"

/-- Message appended when the response column is not numeric (line 66). -/
def nonNumericMsg (c : String) : String :=
  "❌ คอลัมน์ '" ++ c ++ "' ต้องเป็นตัวเลข"

/-- Success message (line 71). -/
def validOkMsg : String := "✅ ข้อมูลถูกต้องสำหรับการวิเคราะห์ RCBD"

/-- Embedding of `data_manager.validate_rcbd_data` (lines 30-71).  First
gate: one message per missing column, returned immediately.  Second stage:
null-count warnings per column, then the numeric-dtype check on the
response column; success only when no message accumulated. -/
def validate_rcbd_data (df : DataFrame) (treatment_col rep_col response_col : String) :
    Bool × String :=
  let missing := [treatment_col, rep_col, response_col].filter
    (fun c => !(df.columns.contains c))
  let errors1 := missing.map missingColMsg
  if errors1 ≠ [] then
    (false, String.intercalate "\n" errors1)
  else
    let withNull := [treatment_col, rep_col, response_col].filter
      (fun c => (df.get c).nullCount ≠ 0)
    let errors2 := withNull.map (fun c => nullColMsg c ((df.get c).nullCount)) ++
      (if !(df.get response_col).dtypeNumeric then [nonNumericMsg response_col] else [])
    if errors2 ≠ [] then
      (false, String.intercalate "\n" errors2)
    else
      (true, validOkMsg)

/- ------------------------------------------------------------------ -/
/- data_manager.get_design_info                                         -/
/- ------------------------------------------------------------------ -/

/-- The design descriptor returned by `get_design_info`. -/
structure DesignInfo where
  num_treatments : Nat
  num_reps : Nat
  total_plots : Nat
  expected_plots : Nat
  is_balanced : Bool
deriving DecidableEq

/-- Embedding of `data_manager.get_design_info` (lines 118-146):
distinct-value counts of the two columns, the row count, and the balance
flag `total_plots == num_treatments * num_reps`. -/
def get_design_info (df : DataFrame) (treatment_col rep_col : String) : DesignInfo :=
  let nt := (df.get treatment_col).nunique
  let nr := (df.get rep_col).nunique
  let tp := df.nRows
  ⟨nt, nr, tp, nt * nr, tp == nt * nr⟩

/-- An empty table (zero rows) that does carry the two designated columns,
as produced by reading a header-only CSV. -/
def emptyDesignDf (treatment_col rep_col : String) : DataFrame :=
  ⟨[(treatment_col, ⟨false, []⟩), (rep_col, ⟨false, []⟩)]⟩

/- ------------------------------------------------------------------ -/
/- anova.get_cv_quality and anova.get_significance_stars                -/
/- ------------------------------------------------------------------ -/

/-- Embedding of `anova.get_cv_quality` (lines 176-193). -/
def get_cv_quality (cv : ℚ) : String :=
  if cv < 10 then "ดีเยี่ยม (Excellent)"
  else if cv < 15 then "ดี (Good)"
  else if cv < 20 then "ยอมรับได้ (Acceptable)"
  else "ต่ำ (Poor)"

/-- A Python float as `get_significance_stars` observes it: either NaN or
an ordinary real value (modelled by a rational).  IEEE 754 comparison
semantics: every `<` comparison against NaN is false. -/
inductive PFloat where
  | nan : PFloat
  | val : ℚ → PFloat
deriving DecidableEq

/-- IEEE comparison `p < c` for a float against a literal: false when `p`
is NaN. -/
def PFloat.ltc : PFloat → ℚ → Bool
  | PFloat.nan, _ => false
  | PFloat.val q, c => q < c

/-- Embedding of `anova.get_significance_stars` (lines 196-213), faithful
to Python float comparison semantics via `PFloat.ltc`. -/
def get_significance_stars (p_value : PFloat) : String :=
  if p_value.ltc (1/1000) then "***"
  else if p_value.ltc (1/100) then "**"
  else if p_value.ltc (1/20) then "*"
  else "ns"

/- ------------------------------------------------------------------ -/
/- The keys of the result dictionaries of the two ANOVA engines          -/
/- ------------------------------------------------------------------ -/

/-- The keys of the dictionary returned by `anova.run_rcbd_anova`
(lines 103-119), in source order. -/
def rcbdResultKeys : List String :=
  ["anova_table", "treatment_means", "cv", "grand_mean", "f_treatment",
   "p_treatment", "is_significant", "alpha", "mse", "se_diff", "lsd",
   "model", "num_treatments", "num_reps", "residual_df"]

/-- The keys of the dictionary returned by `anova.run_crd_anova`
(lines 160-171), in source order. -/
def crdResultKeys : List String :=
  ["anova_table", "treatment_means", "cv", "grand_mean", "f_treatment",
   "p_treatment", "is_significant", "alpha", "mse", "model"]

/- ------------------------------------------------------------------ -/
/- anova.run_rcbd_anova: the column-existence gate                      -/
/- ------------------------------------------------------------------ -/

/-- The fixed message of the `ValueError` raised by `run_rcbd_anova`
(line 45). -/
def rcbdColumnErrMsg : String := "One or more columns not found in DataFrame"

/-- Embedding of the column-existence gate of `anova.run_rcbd_anova`
(lines 43-45): the guard raises `ValueError` with a fixed message when any
of the three names is absent from `df.columns`. -/
def rcbdColumnCheck (df : DataFrame) (treatment_col rep_col response_col : String) :
    Except String Unit :=
  if !(df.columns.contains treatment_col) || !(df.columns.contains rep_col) ||
      !(df.columns.contains response_col) then
    Except.error rcbdColumnErrMsg
  else
    Except.ok ()

/- ------------------------------------------------------------------ -/
/- The RCBD analysis-of-variance computation over exact rationals       -/
/- ------------------------------------------------------------------ -/

/-- Sum of all responses of a balanced complete RCBD layout: treatment
`t` and block `b` index the unique row `(t, b)` with response `y t b`. -/
def grandTotal (T R : ℕ) (y : Fin T → Fin R → ℚ) : ℚ :=
  ∑ t, ∑ b, y t b

/-- Grand mean `df[response_col].mean()` of a balanced layout with
`N = T * R` rows (anova.py line 74). -/
def grandMean (T R : ℕ) (y : Fin T → Fin R → ℚ) : ℚ :=
  grandTotal T R y / ((T : ℚ) * R)

/-- Total response of treatment `t` across the blocks. -/
def trtTotal (T R : ℕ) (y : Fin T → Fin R → ℚ) (t : Fin T) : ℚ :=
  ∑ b, y t b

/-- Mean response of treatment `t`. -/
def trtMean (T R : ℕ) (y : Fin T → Fin R → ℚ) (t : Fin T) : ℚ :=
  trtTotal T R y t / (R : ℚ)

/-- Total response within block `b` across the treatments. -/
def blkTotal (T R : ℕ) (y : Fin T → Fin R → ℚ) (b : Fin R) : ℚ :=
  ∑ t, y t b

/-- Mean response within block `b`. -/
def blkMean (T R : ℕ) (y : Fin T → Fin R → ℚ) (b : Fin R) : ℚ :=
  blkTotal T R y b / (T : ℚ)

/-- Modelled from the spec: `statsmodels.anova_lm` (typ=2) treatment sum
of squares for the balanced additive fit, which is not in src/.  On a
balanced complete layout the Type II treatment sum of squares is
`R * Σ_t (trtMean t - grandMean)^2`. -/
def ssTreatment (T R : ℕ) (y : Fin T → Fin R → ℚ) : ℚ :=
  (R : ℚ) * ∑ t, (trtMean T R y t - grandMean T R y) ^ 2

/-- Modelled from the spec: Type II block sum of squares of the balanced
additive fit, `T * Σ_b (blkMean b - grandMean)^2`. -/
def ssBlock (T R : ℕ) (y : Fin T → Fin R → ℚ) : ℚ :=
  (T : ℚ) * ∑ b, (blkMean T R y b - grandMean T R y) ^ 2

/-- Modelled from the spec: the residual sum of squares reported by
`anova_lm`, i.e. the sum of squared residuals of the ordinary
least-squares fit of `response ~ C(treatment) + C(block)`.  On a balanced
complete layout the fitted value at cell `(t, b)` is
`trtMean t + blkMean b - grandMean` (see `rcbdFit_is_least_squares`
below, which proves this is indeed the least-squares optimum). -/
def ssResidual (T R : ℕ) (y : Fin T → Fin R → ℚ) : ℚ :=
  ∑ t, ∑ b, (y t b - trtMean T R y t - blkMean T R y b + grandMean T R y) ^ 2

/-- Total sum of squares `Σ (y - grand_mean)^2`. -/
def ssTotal (T R : ℕ) (y : Fin T → Fin R → ℚ) : ℚ :=
  ∑ t, ∑ b, (y t b - grandMean T R y) ^ 2

/- ------------------------------------------------------------------ -/
/- Shared real-valued formulas of the two engines                       -/
/- ------------------------------------------------------------------ -/

/-- Coefficient of variation `(sqrt(mse) / grand_mean) * 100`, the
formula shared verbatim by anova.py lines 75 and 154. -/
noncomputable def cvFormula (mse grand_mean : ℝ) : ℝ :=
  Real.sqrt mse / grand_mean * 100

/-- Standard error of a treatment-mean difference `sqrt(2 * mse / r)`,
the formula shared by anova.py lines 86 and 234. -/
noncomputable def seDiff (mse : ℝ) (num_reps : ℕ) : ℝ :=
  Real.sqrt (2 * mse / num_reps)

/-- One row of the treatment-means table produced by
`groupby(treatment)[response].agg(['mean','std','count'])` plus the
derived `SE = std / sqrt(n)` column (anova.py lines 78-80 and 156-158).
For `n < 2` pandas reports NaN for the sample standard deviation; here the
division by `n - 1 = 0` yields the junk value `0`, on which no theorem
below depends. -/
structure MeansRow where
  mean : ℚ
  std : ℝ
  count : ℕ
  se : ℝ

/-- The shared treatment-means computation applied to the list of
responses of one treatment. -/
noncomputable def meansRow (xs : List ℚ) : MeansRow :=
  let n := xs.length
  let m : ℚ := xs.sum / (n : ℚ)
  let sd : ℝ := Real.sqrt ((xs.map (fun x => ((x : ℝ) - (m : ℝ)) ^ 2)).sum / ((n : ℝ) - 1))
  ⟨m, sd, n, sd / Real.sqrt n⟩

/- ------------------------------------------------------------------ -/
/- The Student-t critical value (scipy.stats.t.ppf)                     -/
/- ------------------------------------------------------------------ -/

/-- Modelled from the spec: the density shape of Student's t-distribution
with `nu` degrees of freedom, `(1 + t^2/nu) ^ (-(nu+1)/2)` (the
normalisation constant cancels in the normalised CDF below).
`scipy.stats.t` is not in src/. -/
noncomputable def studentTDensity (nu : ℝ) (t : ℝ) : ℝ :=
  (1 + t ^ 2 / nu) ^ (-((nu + 1) / 2))

/-- Modelled from the spec: the cumulative distribution function of
Student's t-distribution, the normalised left integral of the density. -/
noncomputable def studentTCdf (nu : ℝ) (x : ℝ) : ℝ :=
  (∫ t in Set.Iic x, studentTDensity nu t) / (∫ t, studentTDensity nu t)

/-- Modelled from the spec: `scipy.stats.t.ppf(p, nu)`, the quantile
function of Student's t-distribution, as the least point whose CDF
reaches `p`. -/
noncomputable def tPpf (nu : ℝ) (p : ℝ) : ℝ :=
  sInf {x : ℝ | p ≤ studentTCdf nu x}

/-- Embedding of `anova.calculate_lsd` (lines 216-236):
`t.ppf(1 - alpha/2, residual_df) * sqrt(2 * mse / num_reps)`. -/
noncomputable def calculate_lsd (mse : ℝ) (num_reps : ℕ) (residual_df : ℕ)
    (alpha : ℝ) : ℝ :=
  tPpf residual_df (1 - alpha / 2) * seDiff mse num_reps

/- ------------------------------------------------------------------ -/
/- The F-distribution upper tail (scipy, via statsmodels)               -/
/- ------------------------------------------------------------------ -/

/-- Modelled from the spec: the density shape of the F-distribution with
`(d1, d2)` degrees of freedom, supported on the positive half line.
Only the definition is needed: no theorem below uses any analytic
property of it. -/
noncomputable def fDensity (d1 d2 : ℝ) (x : ℝ) : ℝ :=
  if 0 < x then x ^ (d1 / 2 - 1) * (1 + d1 * x / d2) ^ (-((d1 + d2) / 2)) else 0

/-- Modelled from the spec: the upper-tail probability `P(F > x)`
reported as the treatment p-value by `anova_lm`. -/
noncomputable def fSurv (d1 d2 : ℝ) (x : ℝ) : ℝ :=
  (∫ t in Set.Ioi x, fDensity d1 d2 t) / (∫ t, fDensity d1 d2 t)

/- ------------------------------------------------------------------ -/
/- IEEE float special values in the degenerate RCBD paths               -/
/- ------------------------------------------------------------------ -/

/-- An IEEE 754 double as the degenerate paths of `run_rcbd_anova`
observe it: NaN, a signed infinity, or a finite value (modelled by a
real number).  The sign of zero is not tracked: every zero is the
IEEE `+0`, which matches the non-negative quantities (sums of squares,
square roots, counts) flowing through the modelled expressions. -/
inductive RFloat where
  | nan : RFloat
  | inf : RFloat
  | ninf : RFloat
  | fin : ℝ → RFloat

/-- Whether a float is NaN or an infinity (an IEEE special value). -/
def RFloat.isNanOrInf : RFloat → Bool
  | RFloat.fin _ => false
  | _ => true

open Classical in
/-- IEEE division.  numpy emits a RuntimeWarning on division by zero
but returns the IEEE result rather than raising: `x/0` is NaN for
`x = 0` and a signed infinity otherwise, and `inf/0 = inf`. -/
noncomputable def RFloat.div : RFloat → RFloat → RFloat
  | RFloat.nan, _ => RFloat.nan
  | _, RFloat.nan => RFloat.nan
  | RFloat.fin a, RFloat.fin b =>
      if b = 0 then
        (if a = 0 then RFloat.nan else if 0 < a then RFloat.inf else RFloat.ninf)
      else RFloat.fin (a / b)
  | RFloat.fin _, RFloat.inf => RFloat.fin 0
  | RFloat.fin _, RFloat.ninf => RFloat.fin 0
  | RFloat.inf, RFloat.fin b => if 0 ≤ b then RFloat.inf else RFloat.ninf
  | RFloat.ninf, RFloat.fin b => if 0 ≤ b then RFloat.ninf else RFloat.inf
  | RFloat.inf, RFloat.inf => RFloat.nan
  | RFloat.inf, RFloat.ninf => RFloat.nan
  | RFloat.ninf, RFloat.inf => RFloat.nan
  | RFloat.ninf, RFloat.ninf => RFloat.nan

open Classical in
/-- IEEE multiplication: NaN absorbs, `inf * 0` is NaN, otherwise signs
multiply. -/
noncomputable def RFloat.mul : RFloat → RFloat → RFloat
  | RFloat.nan, _ => RFloat.nan
  | _, RFloat.nan => RFloat.nan
  | RFloat.fin a, RFloat.fin b => RFloat.fin (a * b)
  | RFloat.inf, RFloat.fin b =>
      if b = 0 then RFloat.nan else if 0 < b then RFloat.inf else RFloat.ninf
  | RFloat.fin a, RFloat.inf =>
      if a = 0 then RFloat.nan else if 0 < a then RFloat.inf else RFloat.ninf
  | RFloat.ninf, RFloat.fin b =>
      if b = 0 then RFloat.nan else if 0 < b then RFloat.ninf else RFloat.inf
  | RFloat.fin a, RFloat.ninf =>
      if a = 0 then RFloat.nan else if 0 < a then RFloat.ninf else RFloat.inf
  | RFloat.inf, RFloat.inf => RFloat.inf
  | RFloat.inf, RFloat.ninf => RFloat.ninf
  | RFloat.ninf, RFloat.inf => RFloat.ninf
  | RFloat.ninf, RFloat.ninf => RFloat.inf

open Classical in
/-- IEEE square root (`np.sqrt`): NaN on NaN, negative finite values and
negative infinity; `sqrt(inf) = inf`. -/
noncomputable def RFloat.sqrtF : RFloat → RFloat
  | RFloat.nan => RFloat.nan
  | RFloat.inf => RFloat.inf
  | RFloat.ninf => RFloat.nan
  | RFloat.fin a => if a < 0 then RFloat.nan else RFloat.fin (Real.sqrt a)

open Classical in
/-- Modelled from the spec: `scipy.stats.t.ppf(p, df)` as the degenerate
paths see it — NaN for non-positive degrees of freedom (the spec's
NumericDegeneracy: zero residual degrees of freedom produce NaN in the
dependent fields without raising), the Student-t quantile `tPpf`
otherwise. -/
noncomputable def tPpfFloat (df : ℤ) (p : ℝ) : RFloat :=
  if 0 < df then RFloat.fin (tPpf (df : ℝ) p) else RFloat.nan

/-- The float-valued derived statistics of `run_rcbd_anova` (anova.py
lines 67, 75, 86-88) as numpy evaluates them.  The operands
(`residual_ss` from the ANOVA table, `residual_df`, `grand_mean`,
`num_reps`) enter as numpy float64 scalars, so zero divisors yield IEEE
special values instead of raising. -/
structure RcbdDerived where
  residual_ms : RFloat
  cv : RFloat
  se_diff : RFloat
  t_critical : RFloat
  lsd : RFloat

/-- Embedding of the derived-statistics tail of `run_rcbd_anova` over
the float domain:
`residual_ms = residual_ss / residual_df` (line 67),
`cv = sqrt(residual_ms) / grand_mean * 100` (line 75),
`se_diff = sqrt(2 * residual_ms / num_reps)` (line 86),
`t_critical = t.ppf(1 - alpha/2, residual_df)` (line 87),
`lsd = t_critical * se_diff` (line 88).
A total function: no input raises. -/
noncomputable def rcbdDerivedStats (residual_ss : ℚ) (residual_df : ℤ)
    (grand_mean : ℚ) (num_reps : ℕ) (alpha : ℝ) : RcbdDerived :=
  let ms := RFloat.div (RFloat.fin (residual_ss : ℝ)) (RFloat.fin (residual_df : ℝ))
  let cv := RFloat.mul (RFloat.div ms.sqrtF (RFloat.fin (grand_mean : ℝ)))
    (RFloat.fin 100)
  let se := (RFloat.div (RFloat.mul (RFloat.fin 2) ms)
    (RFloat.fin (num_reps : ℝ))).sqrtF
  let tc := tPpfFloat residual_df (1 - alpha / 2)
  ⟨ms, cv, se, tc, RFloat.mul tc se⟩

/- ------------------------------------------------------------------ -/
/- anova.run_rcbd_anova on a balanced complete layout                   -/
/- ------------------------------------------------------------------ -/

/-- The structured result of `run_rcbd_anova` (the dictionary of
lines 103-119 together with the formatted ANOVA table of lines 91-98;
the `model` entry, an opaque statsmodels handle, is omitted). -/
structure RcbdResult (T : ℕ) where
  treatment_df : ℤ
  rep_df : ℤ
  residual_df : ℤ
  total_df : ℤ
  treatment_ss : ℚ
  rep_ss : ℚ
  residual_ss : ℚ
  total_ss : ℚ
  treatment_ms : ℚ
  mse : ℚ
  grand_mean : ℚ
  cv : ℝ
  treatment_means : Fin T → MeansRow
  num_treatments : ℤ
  num_reps : ℕ
  se_diff : ℝ
  lsd : ℝ
  f_treatment : ℚ
  p_treatment : ℝ
  is_significant : Prop
  alpha : ℝ

/-- Embedding of `anova.run_rcbd_anova` (lines 14-121) on a balanced
complete layout (exactly one row per `(treatment, block)` pair): the
column-existence gate of lines 43-45 is `rcbdColumnCheck` above.  The
sums of squares and degrees of freedom delivered by `ols`/`anova_lm`
(not in src/) are modelled from the spec by the closed forms valid for
the balanced additive fit; the residual degrees of freedom are
`N - T - R + 1` with `N = T * R` rows.  `num_reps` is
`df[rep_col].nunique()`, which is `R` on this layout. -/
noncomputable def run_rcbd_anova (T R : ℕ) (y : Fin T → Fin R → ℚ) (alpha : ℝ) :
    RcbdResult T :=
  let tdf : ℤ := (T : ℤ) - 1
  let rdf : ℤ := (R : ℤ) - 1
  let resdf : ℤ := (T : ℤ) * R - T - R + 1
  let mse : ℚ := ssResidual T R y / ((T : ℚ) * R - T - R + 1)
  let tms : ℚ := ssTreatment T R y / ((T : ℚ) - 1)
  let gm : ℚ := grandMean T R y
  let se : ℝ := seDiff (mse : ℝ) R
  let f : ℚ := tms / mse
  let p : ℝ := fSurv ((T : ℝ) - 1) ((T : ℝ) * R - T - R + 1) (f : ℝ)
  { treatment_df := tdf
    rep_df := rdf
    residual_df := resdf
    total_df := tdf + rdf + resdf
    treatment_ss := ssTreatment T R y
    rep_ss := ssBlock T R y
    residual_ss := ssResidual T R y
    total_ss := ssResidual T R y + ssTreatment T R y + ssBlock T R y
    treatment_ms := tms
    mse := mse
    grand_mean := gm
    cv := cvFormula (mse : ℝ) (gm : ℝ)
    treatment_means := fun t => meansRow (List.ofFn (y t))
    num_treatments := tdf + 1
    num_reps := R
    se_diff := se
    lsd := tPpf ((T : ℝ) * R - T - R + 1) (1 - alpha / 2) * se
    f_treatment := f
    p_treatment := p
    is_significant := p < alpha
    alpha := alpha }

/- ------------------------------------------------------------------ -/
/- anova.run_crd_anova: one factor, possibly unequal replicate counts   -/
/- ------------------------------------------------------------------ -/

/-- Total number of observations `N = Σ_t n t` of a one-factor layout in
which treatment `t` has `n t` replicates. -/
def crdN (T : ℕ) (n : Fin T → ℕ) : ℕ :=
  ∑ t, n t

/-- Grand mean of a one-factor layout. -/
def crdGrandMean (T : ℕ) (n : Fin T → ℕ) (y : (t : Fin T) → Fin (n t) → ℚ) : ℚ :=
  (∑ t, ∑ i, y t i) / (crdN T n : ℚ)

/-- Mean response of treatment `t` in a one-factor layout. -/
def crdTrtMean (T : ℕ) (n : Fin T → ℕ) (y : (t : Fin T) → Fin (n t) → ℚ)
    (t : Fin T) : ℚ :=
  (∑ i, y t i) / (n t : ℚ)

/-- Modelled from the spec: the treatment (between-group) sum of squares
reported by `anova_lm` for the one-factor fit,
`Σ_t n t * (mean_t - grand)^2`. -/
def crdSsTreatment (T : ℕ) (n : Fin T → ℕ) (y : (t : Fin T) → Fin (n t) → ℚ) : ℚ :=
  ∑ t, (n t : ℚ) * (crdTrtMean T n y t - crdGrandMean T n y) ^ 2

/-- Modelled from the spec: the residual (within-group) sum of squares of
the one-factor least-squares fit, whose fitted values are the group
means. -/
def crdSsResidual (T : ℕ) (n : Fin T → ℕ) (y : (t : Fin T) → Fin (n t) → ℚ) : ℚ :=
  ∑ t, ∑ i, (y t i - crdTrtMean T n y t) ^ 2

/-- Total sum of squares `Σ (y - grand_mean)^2` of a one-factor layout. -/
def crdSsTotal (T : ℕ) (n : Fin T → ℕ) (y : (t : Fin T) → Fin (n t) → ℚ) : ℚ :=
  ∑ t, ∑ i, (y t i - crdGrandMean T n y) ^ 2

/-- The structured result of `run_crd_anova` (the dictionary of
lines 160-171 plus the degrees of freedom and sums of squares readable
from its `anova_table`; the `model` handle is omitted).  Note the absence
of `se_diff`, `lsd`, `num_reps` and `residual_df` fields: the CRD
dictionary does not contain them (`crdResultKeys`). -/
structure CrdResult (T : ℕ) where
  treatment_df : ℤ
  residual_df_table : ℤ
  treatment_ss : ℚ
  residual_ss : ℚ
  mse : ℚ
  grand_mean : ℚ
  cv : ℝ
  treatment_means : Fin T → MeansRow
  f_treatment : ℚ
  p_treatment : ℝ
  is_significant : Prop
  alpha : ℝ

/-- Embedding of `anova.run_crd_anova` (lines 124-173) on a one-factor
layout in which treatment `t` occurs `n t` times.  The sums of squares
and degrees of freedom of the `ols`/`anova_lm` fit (not in src/) are
modelled from the spec: residual degrees of freedom `N - T`, treatment
degrees of freedom `T - 1`, group-mean fitted values. -/
noncomputable def run_crd_anova (T : ℕ) (n : Fin T → ℕ)
    (y : (t : Fin T) → Fin (n t) → ℚ) (alpha : ℝ) : CrdResult T :=
  let resdf : ℤ := (crdN T n : ℤ) - T
  let mse : ℚ := crdSsResidual T n y / ((crdN T n : ℚ) - T)
  let gm : ℚ := crdGrandMean T n y
  let f : ℚ := (crdSsTreatment T n y / ((T : ℚ) - 1)) / mse
  let p : ℝ := fSurv ((T : ℝ) - 1) ((crdN T n : ℝ) - T) (f : ℝ)
  { treatment_df := (T : ℤ) - 1
    residual_df_table := resdf
    treatment_ss := crdSsTreatment T n y
    residual_ss := crdSsResidual T n y
    mse := mse
    grand_mean := gm
    cv := cvFormula (mse : ℝ) (gm : ℝ)
    treatment_means := fun t => meansRow (List.ofFn (y t))
    f_treatment := f
    p_treatment := p
    is_significant := p < alpha
    alpha := alpha }

/- ------------------------------------------------------------------ -/
/- Example tables                                                       -/
/- ------------------------------------------------------------------ -/

/-- A two-column table (treatment and replication, no response column),
used to exercise the missing-column paths. -/
def dfTrtRepOnly : DataFrame :=
  ⟨[("Trt", ⟨false, [Cell.str "A", Cell.str "B"]⟩),
    ("Rep", ⟨true, [Cell.num 1, Cell.num 1]⟩)]⟩

/-- The 2-treatment, 2-block scenario table of the spec, as the two
designated columns. -/
def dfScenario : DataFrame :=
  ⟨[("T", ⟨false, [Cell.str "V1", Cell.str "V2", Cell.str "V1", Cell.str "V2"]⟩),
    ("R", ⟨true, [Cell.num 1, Cell.num 1, Cell.num 2, Cell.num 2]⟩)]⟩

/- ------------------------------------------------------------------ -/
/- The balanced two-way decomposition: supporting lemmas                -/
/- ------------------------------------------------------------------ -/

/-- Summing the block totals recovers the grand total. -/
theorem sum_blkTotal (T R : ℕ) (y : Fin T → Fin R → ℚ) :
    ∑ b, blkTotal T R y b = grandTotal T R y := by
  rw [grandTotal, Finset.sum_comm]
  rfl

/-- Summing the treatment totals recovers the grand total. -/
theorem sum_trtTotal (T R : ℕ) (y : Fin T → Fin R → ℚ) :
    ∑ t, trtTotal T R y t = grandTotal T R y :=
  rfl

/-- Within each treatment, the residuals of the balanced additive fit sum
to zero (one of the normal equations of the least-squares problem). -/
theorem resDev_row_sum (T R : ℕ) (hT : 0 < T) (hR : 0 < R)
    (y : Fin T → Fin R → ℚ) (t : Fin T) :
    ∑ b, (y t b - trtMean T R y t - blkMean T R y b + grandMean T R y) = 0 := by
  have hT' : (T : ℚ) ≠ 0 := Nat.cast_ne_zero.mpr hT.ne'
  have hR' : (R : ℚ) ≠ 0 := Nat.cast_ne_zero.mpr hR.ne'
  have hQ : ∑ b, blkTotal T R y b = grandTotal T R y := sum_blkTotal T R y
  simp only [Finset.sum_add_distrib, Finset.sum_sub_distrib, Finset.sum_const,
    Finset.card_univ, Fintype.card_fin, nsmul_eq_mul, blkMean, trtMean,
    grandMean, ← Finset.sum_div, hQ, trtTotal]
  field_simp
  ring

/-- Within each block, the residuals of the balanced additive fit sum to
zero (the other family of normal equations). -/
theorem resDev_col_sum (T R : ℕ) (hT : 0 < T) (hR : 0 < R)
    (y : Fin T → Fin R → ℚ) (b : Fin R) :
    ∑ t, (y t b - trtMean T R y t - blkMean T R y b + grandMean T R y) = 0 := by
  have hT' : (T : ℚ) ≠ 0 := Nat.cast_ne_zero.mpr hT.ne'
  have hR' : (R : ℚ) ≠ 0 := Nat.cast_ne_zero.mpr hR.ne'
  have hP : ∑ t, trtTotal T R y t = grandTotal T R y := sum_trtTotal T R y
  simp only [Finset.sum_add_distrib, Finset.sum_sub_distrib, Finset.sum_const,
    Finset.card_univ, Fintype.card_fin, nsmul_eq_mul, blkMean, trtMean,
    grandMean, ← Finset.sum_div, hP, blkTotal]
  field_simp
  ring

/-- The block-mean deviations from the grand mean sum to zero. -/
theorem blkDev_sum (T R : ℕ) (hT : 0 < T) (hR : 0 < R)
    (y : Fin T → Fin R → ℚ) :
    ∑ b, (blkMean T R y b - grandMean T R y) = 0 := by
  have hT' : (T : ℚ) ≠ 0 := Nat.cast_ne_zero.mpr hT.ne'
  have hR' : (R : ℚ) ≠ 0 := Nat.cast_ne_zero.mpr hR.ne'
  have hQ : ∑ b, blkTotal T R y b = grandTotal T R y := sum_blkTotal T R y
  simp only [Finset.sum_sub_distrib, Finset.sum_const, Finset.card_univ,
    Fintype.card_fin, nsmul_eq_mul, blkMean, grandMean, ← Finset.sum_div, hQ]
  field_simp
  ring

/-- Orthogonal decomposition of the total sum of squares of a balanced
complete layout: treatment, block and residual sums of squares add up
exactly to `Σ (y - grand_mean)^2`. -/
theorem ssPartition (T R : ℕ) (hT : 0 < T) (hR : 0 < R)
    (y : Fin T → Fin R → ℚ) :
    ssTreatment T R y + ssBlock T R y + ssResidual T R y = ssTotal T R y := by
  have hrow := resDev_row_sum T R hT hR y
  have hcol := resDev_col_sum T R hT hR y
  have hc := blkDev_sum T R hT hR y
  have expand : ∀ t b,
      (y t b - grandMean T R y) ^ 2
        = (trtMean T R y t - grandMean T R y) ^ 2
          + (blkMean T R y b - grandMean T R y) ^ 2
          + (y t b - trtMean T R y t - blkMean T R y b + grandMean T R y) ^ 2
          + 2 * ((trtMean T R y t - grandMean T R y)
              * (blkMean T R y b - grandMean T R y))
          + 2 * ((trtMean T R y t - grandMean T R y)
              * (y t b - trtMean T R y t - blkMean T R y b + grandMean T R y))
          + 2 * ((blkMean T R y b - grandMean T R y)
              * (y t b - trtMean T R y t - blkMean T R y b + grandMean T R y)) := by
    intro t b
    ring
  have h1 : ∑ t, ∑ _b : Fin R, (trtMean T R y t - grandMean T R y) ^ 2
      = ssTreatment T R y := by
    simp [ssTreatment, Finset.sum_const, Finset.card_univ, nsmul_eq_mul,
      Finset.mul_sum]
  have h2 : ∑ _t : Fin T, ∑ b, (blkMean T R y b - grandMean T R y) ^ 2
      = ssBlock T R y := by
    simp [ssBlock, Finset.sum_const, Finset.card_univ, nsmul_eq_mul]
  have h4 : ∑ t, ∑ b, 2 * ((trtMean T R y t - grandMean T R y)
      * (blkMean T R y b - grandMean T R y)) = 0 := by
    refine Finset.sum_eq_zero fun t _ => ?_
    rw [← Finset.mul_sum, ← Finset.mul_sum, hc]
    ring
  have h5 : ∑ t, ∑ b, 2 * ((trtMean T R y t - grandMean T R y)
      * (y t b - trtMean T R y t - blkMean T R y b + grandMean T R y)) = 0 := by
    refine Finset.sum_eq_zero fun t _ => ?_
    rw [← Finset.mul_sum, ← Finset.mul_sum, hrow t]
    ring
  have h6 : ∑ t, ∑ b, 2 * ((blkMean T R y b - grandMean T R y)
      * (y t b - trtMean T R y t - blkMean T R y b + grandMean T R y)) = 0 := by
    rw [Finset.sum_comm]
    refine Finset.sum_eq_zero fun b _ => ?_
    rw [← Finset.mul_sum, ← Finset.mul_sum, hcol b]
    ring
  have hT2 : ssTotal T R y
      = ssTreatment T R y + ssBlock T R y + ssResidual T R y + 0 + 0 + 0 := by
    rw [ssTotal]
    rw [Finset.sum_congr rfl fun t _ => Finset.sum_congr rfl fun b _ => expand t b]
    simp only [Finset.sum_add_distrib]
    rw [h1, h2, h4, h5, h6]
    rfl
  rw [hT2]
  ring

/-- The modelled fitted values `trtMean t + blkMean b - grandMean` are a
least-squares optimum of the additive model
`response = mu + treatment_effect + block_effect + error`: no choice of
intercept and effects achieves a smaller sum of squared residuals.  This
justifies taking `ssResidual` as the residual sum of squares of the
`ols` fit. -/
theorem rcbdFit_is_least_squares (T R : ℕ) (hT : 0 < T) (hR : 0 < R)
    (y : Fin T → Fin R → ℚ) (mu : ℚ) (ap : Fin T → ℚ) (bp : Fin R → ℚ) :
    ssResidual T R y ≤ ∑ t, ∑ b, (y t b - (mu + ap t + bp b)) ^ 2 := by
  have hrow := resDev_row_sum T R hT hR y
  have hcol := resDev_col_sum T R hT hR y
  have expand : ∀ t b,
      (y t b - (mu + ap t + bp b)) ^ 2
        = (y t b - trtMean T R y t - blkMean T R y b + grandMean T R y) ^ 2
          + ((trtMean T R y t - ap t - grandMean T R y - mu)
              + (blkMean T R y b - bp b)) ^ 2
          + 2 * ((trtMean T R y t - ap t - grandMean T R y - mu)
              * (y t b - trtMean T R y t - blkMean T R y b + grandMean T R y))
          + 2 * ((blkMean T R y b - bp b)
              * (y t b - trtMean T R y t - blkMean T R y b + grandMean T R y)) := by
    intro t b
    ring
  have h5 : ∑ t, ∑ b, 2 * ((trtMean T R y t - ap t - grandMean T R y - mu)
      * (y t b - trtMean T R y t - blkMean T R y b + grandMean T R y)) = 0 := by
    refine Finset.sum_eq_zero fun t _ => ?_
    rw [← Finset.mul_sum, ← Finset.mul_sum, hrow t]
    ring
  have h6 : ∑ t, ∑ b, 2 * ((blkMean T R y b - bp b)
      * (y t b - trtMean T R y t - blkMean T R y b + grandMean T R y)) = 0 := by
    rw [Finset.sum_comm]
    refine Finset.sum_eq_zero fun b _ => ?_
    rw [← Finset.mul_sum, ← Finset.mul_sum, hcol b]
    ring
  have hsplit : ∑ t, ∑ b, (y t b - (mu + ap t + bp b)) ^ 2
      = ssResidual T R y
        + ∑ t, ∑ b, ((trtMean T R y t - ap t - grandMean T R y - mu)
            + (blkMean T R y b - bp b)) ^ 2 + 0 + 0 := by
    rw [Finset.sum_congr rfl fun t _ => Finset.sum_congr rfl fun b _ => expand t b]
    simp only [Finset.sum_add_distrib]
    rw [h5, h6]
    rfl
  rw [hsplit]
  have hnn : 0 ≤ ∑ t, ∑ b, ((trtMean T R y t - ap t - grandMean T R y - mu)
      + (blkMean T R y b - bp b)) ^ 2 :=
    Finset.sum_nonneg fun t _ => Finset.sum_nonneg fun b _ => sq_nonneg _
  linarith

/- ------------------------------------------------------------------ -/
/- The one-way decomposition (CRD)                                      -/
/- ------------------------------------------------------------------ -/

/-- Within each treatment group, the deviations from the group mean sum
to zero (trivially so for an empty group). -/
theorem crdGroupDev_sum (T : ℕ) (n : Fin T → ℕ) (y : (t : Fin T) → Fin (n t) → ℚ)
    (t : Fin T) :
    ∑ i, (y t i - crdTrtMean T n y t) = 0 := by
  rcases Nat.eq_zero_or_pos (n t) with h | h
  · haveI : IsEmpty (Fin (n t)) := h ▸ Fin.isEmpty
    simp
  · have hn : (n t : ℚ) ≠ 0 := Nat.cast_ne_zero.mpr h.ne'
    simp only [Finset.sum_sub_distrib, Finset.sum_const, Finset.card_univ,
      Fintype.card_fin, nsmul_eq_mul, crdTrtMean]
    field_simp

/-- One-way decomposition of the total sum of squares: treatment and
residual sums of squares of the one-factor fit add up exactly to
`Σ (y - grand_mean)^2`, for every layout (balanced or not). -/
theorem crdSsPartition (T : ℕ) (n : Fin T → ℕ) (y : (t : Fin T) → Fin (n t) → ℚ) :
    crdSsTreatment T n y + crdSsResidual T n y = crdSsTotal T n y := by
  rw [crdSsTreatment, crdSsResidual, crdSsTotal, ← Finset.sum_add_distrib]
  refine Finset.sum_congr rfl fun t _ => ?_
  have hdev := crdGroupDev_sum T n y t
  have expand : ∀ i : Fin (n t),
      (y t i - crdGrandMean T n y) ^ 2
        = (y t i - crdTrtMean T n y t) ^ 2
          + (crdTrtMean T n y t - crdGrandMean T n y) ^ 2
          + 2 * ((y t i - crdTrtMean T n y t)
              * (crdTrtMean T n y t - crdGrandMean T n y)) := by
    intro i
    ring
  rw [Finset.sum_congr rfl fun i _ => expand i]
  simp only [Finset.sum_add_distrib, Finset.sum_const, Finset.card_univ,
    Fintype.card_fin, nsmul_eq_mul]
  have h2 : ∑ i, 2 * ((y t i - crdTrtMean T n y t)
      * (crdTrtMean T n y t - crdGrandMean T n y))
      = 2 * (crdTrtMean T n y t - crdGrandMean T n y)
        * ∑ i, (y t i - crdTrtMean T n y t) := by
    rw [Finset.mul_sum]
    exact Finset.sum_congr rfl fun i _ => by ring
  rw [h2, hdev]
  ring

/-- The group means are a least-squares optimum of the one-factor model:
no other choice of per-treatment fitted values achieves a smaller sum of
squared residuals.  This justifies taking `crdSsResidual` as the residual
sum of squares of the one-factor `ols` fit. -/
theorem crdFit_is_least_squares (T : ℕ) (n : Fin T → ℕ)
    (y : (t : Fin T) → Fin (n t) → ℚ) (m : Fin T → ℚ) :
    crdSsResidual T n y ≤ ∑ t, ∑ i, (y t i - m t) ^ 2 := by
  rw [crdSsResidual]
  refine Finset.sum_le_sum fun t _ => ?_
  have hdev := crdGroupDev_sum T n y t
  have expand : ∀ i : Fin (n t),
      (y t i - m t) ^ 2
        = (y t i - crdTrtMean T n y t) ^ 2
          + (crdTrtMean T n y t - m t) ^ 2
          + 2 * ((y t i - crdTrtMean T n y t) * (crdTrtMean T n y t - m t)) := by
    intro i
    ring
  rw [Finset.sum_congr rfl fun i _ => expand i]
  simp only [Finset.sum_add_distrib, Finset.sum_const, Finset.card_univ,
    Fintype.card_fin, nsmul_eq_mul]
  have h2 : ∑ i, 2 * ((y t i - crdTrtMean T n y t) * (crdTrtMean T n y t - m t))
      = 2 * (crdTrtMean T n y t - m t) * ∑ i, (y t i - crdTrtMean T n y t) := by
    rw [Finset.mul_sum]
    exact Finset.sum_congr rfl fun i _ => by ring
  rw [h2, hdev]
  have : 0 ≤ (n t : ℚ) * (crdTrtMean T n y t - m t) ^ 2 :=
    mul_nonneg (Nat.cast_nonneg _) (sq_nonneg _)
  linarith

/- ------------------------------------------------------------------ -/
/- Properties of the modelled Student-t quantile                        -/
/- ------------------------------------------------------------------ -/

/-- The t-density shape is strictly positive. -/
theorem studentTDensity_pos (nu : ℝ) (hnu : 1 ≤ nu) (t : ℝ) :
    0 < studentTDensity nu t := by
  have hbase : (0 : ℝ) < 1 + t ^ 2 / nu := by positivity
  exact Real.rpow_pos_of_pos hbase _

/-- The t-density shape is bounded by a multiple of the Cauchy shape and
hence integrable over the whole line when `1 ≤ nu`. -/
theorem studentTDensity_le (nu : ℝ) (hnu : 1 ≤ nu) (t : ℝ) :
    studentTDensity nu t ≤ nu * (1 + t ^ 2)⁻¹ := by
  have hnu0 : (0 : ℝ) < nu := lt_of_lt_of_le one_pos hnu
  have hbase : (1 : ℝ) ≤ 1 + t ^ 2 / nu := by
    have : (0 : ℝ) ≤ t ^ 2 / nu := by positivity
    linarith
  have h1 : studentTDensity nu t ≤ (1 + t ^ 2 / nu) ^ (-1 : ℝ) := by
    refine Real.rpow_le_rpow_of_exponent_le hbase ?_
    have : (1 : ℝ) ≤ (nu + 1) / 2 := by linarith
    linarith
  have h2 : (1 + t ^ 2 / nu) ^ (-1 : ℝ) = nu / (nu + t ^ 2) := by
    rw [Real.rpow_neg_one]
    rw [inv_eq_one_div]
    rw [div_eq_div_iff (by positivity) (by positivity)]
    field_simp
  have h3 : nu / (nu + t ^ 2) ≤ nu / (1 + t ^ 2) := by
    refine div_le_div_of_nonneg_left hnu0.le (by positivity) (by nlinarith)
  calc studentTDensity nu t ≤ (1 + t ^ 2 / nu) ^ (-1 : ℝ) := h1
    _ = nu / (nu + t ^ 2) := h2
    _ ≤ nu / (1 + t ^ 2) := h3
    _ = nu * (1 + t ^ 2)⁻¹ := by rw [div_eq_mul_inv]

/-- The t-density shape is continuous. -/
theorem studentTDensity_continuous (nu : ℝ) (hnu : 1 ≤ nu) :
    Continuous (studentTDensity nu) := by
  refine Continuous.rpow_const ?_ ?_
  · fun_prop
  · intro t
    left
    have : (0 : ℝ) < 1 + t ^ 2 / nu := by positivity
    exact this.ne'

/-- Integrability of the t-density shape over the whole line. -/
theorem studentTDensity_integrable (nu : ℝ) (hnu : 1 ≤ nu) :
    MeasureTheory.Integrable (studentTDensity nu) := by
  refine ((integrable_inv_one_add_sq.const_mul nu).mono'
    ((studentTDensity_continuous nu hnu).aestronglyMeasurable) ?_)
  refine Filter.Eventually.of_forall fun t => ?_
  rw [Real.norm_eq_abs, abs_of_pos (studentTDensity_pos nu hnu t)]
  exact studentTDensity_le nu hnu t

/-- The total mass of the t-density shape is strictly positive. -/
theorem studentTDensity_total_pos (nu : ℝ) (hnu : 1 ≤ nu) :
    0 < ∫ t, studentTDensity nu t := by
  rw [MeasureTheory.integral_pos_iff_support_of_nonneg
    (fun t => (studentTDensity_pos nu hnu t).le)
    (studentTDensity_integrable nu hnu)]
  have hsupp : Function.support (studentTDensity nu) = Set.univ :=
    Set.eq_univ_of_forall fun t => (studentTDensity_pos nu hnu t).ne'
  rw [hsupp]
  simp [Real.volume_univ]

/-- The left integral of the t-density shape is monotone in its upper
endpoint. -/
theorem studentT_num_mono (nu : ℝ) (hnu : 1 ≤ nu) {x x' : ℝ} (h : x ≤ x') :
    (∫ t in Set.Iic x, studentTDensity nu t)
      ≤ ∫ t in Set.Iic x', studentTDensity nu t := by
  refine MeasureTheory.setIntegral_mono_set
    ((studentTDensity_integrable nu hnu).integrableOn)
    (MeasureTheory.ae_of_all _ fun t => (studentTDensity_pos nu hnu t).le)
    (HasSubset.Subset.eventuallyLE (Set.Iic_subset_Iic.mpr h))

/-- The modelled CDF is monotone. -/
theorem studentTCdf_mono (nu : ℝ) (hnu : 1 ≤ nu) {x x' : ℝ} (h : x ≤ x') :
    studentTCdf nu x ≤ studentTCdf nu x' := by
  unfold studentTCdf
  have htot := studentTDensity_total_pos nu hnu
  have hnum := studentT_num_mono nu hnu h
  gcongr

/-- The modelled CDF takes the value one half at zero: the density shape
is even, so each half line carries half of the total mass. -/
theorem studentTCdf_zero (nu : ℝ) (hnu : 1 ≤ nu) :
    studentTCdf nu 0 = 1 / 2 := by
  have heven : ∀ t : ℝ, studentTDensity nu (-t) = studentTDensity nu t := by
    intro t
    unfold studentTDensity
    rw [neg_sq]
  have hrefl : (∫ t in Set.Iic (0 : ℝ), studentTDensity nu t)
      = ∫ t in Set.Ioi (0 : ℝ), studentTDensity nu t := by
    calc (∫ t in Set.Iic (0 : ℝ), studentTDensity nu t)
        = ∫ t in Set.Iic (0 : ℝ), studentTDensity nu (-t) := by
          exact (MeasureTheory.setIntegral_congr_fun measurableSet_Iic
            fun t _ => (heven t).symm)
      _ = ∫ t in Set.Ioi (-(0 : ℝ)), studentTDensity nu t :=
          integral_comp_neg_Iic 0 (studentTDensity nu)
      _ = ∫ t in Set.Ioi (0 : ℝ), studentTDensity nu t := by rw [neg_zero]
  have hsplit : (∫ t in Set.Iic (0 : ℝ), studentTDensity nu t)
      + ∫ t in Set.Ioi (0 : ℝ), studentTDensity nu t
      = ∫ t, studentTDensity nu t :=
    intervalIntegral.integral_Iic_add_Ioi
      ((studentTDensity_integrable nu hnu).integrableOn)
      ((studentTDensity_integrable nu hnu).integrableOn)
  have htot := studentTDensity_total_pos nu hnu
  unfold studentTCdf
  rw [← hsplit, ← hrefl]
  have hnum : (0 : ℝ) < ∫ t in Set.Iic (0 : ℝ), studentTDensity nu t := by
    linarith [hsplit, hrefl, htot]
  field_simp
  ring

/-- The Student-t critical value at an upper-half confidence level is
non-negative: the distribution's median is zero, so a quantile beyond
one half cannot lie on the negative axis. -/
theorem tPpf_nonneg (nu : ℝ) (hnu : 1 ≤ nu) (p : ℝ) (hp : 1 / 2 < p) :
    0 ≤ tPpf nu p := by
  refine Real.sInf_nonneg fun x hx => ?_
  by_contra hneg
  push_neg at hneg
  have hmono := studentTCdf_mono nu hnu hneg.le
  rw [studentTCdf_zero nu hnu] at hmono
  have : p ≤ studentTCdf nu x := hx
  linarith

/- ------------------------------------------------------------------ -/
/- Special-value propagation through the degenerate RCBD paths          -/
/- ------------------------------------------------------------------ -/

/-- NaN absorbs under multiplication. -/
theorem rfloat_mul_nan_left (x : RFloat) :
    RFloat.mul RFloat.nan x = RFloat.nan := by
  cases x <;> rfl

/-- Finite division by the float zero is NaN or a signed infinity. -/
theorem rfloat_div_fin_zero_special (a : ℝ) :
    (RFloat.div (RFloat.fin a) (RFloat.fin 0)).isNanOrInf = true := by
  by_cases ha : a = 0
  · simp [RFloat.div, ha, RFloat.isNanOrInf]
  · by_cases ha' : 0 < a
    · simp [RFloat.div, ha, ha', RFloat.isNanOrInf]
    · simp [RFloat.div, ha, ha', RFloat.isNanOrInf]

/-- The CV pipeline `sqrt(ms) / 0 * 100` ends in NaN or an infinity
whatever the mean square was. -/
theorem cvPipeline_special_of_zero_mean (x : RFloat) :
    (RFloat.mul (RFloat.div x.sqrtF (RFloat.fin 0)) (RFloat.fin 100)).isNanOrInf
      = true := by
  have h100 : ¬ ((100 : ℝ) = 0) := by norm_num
  have h100' : (0 : ℝ) < 100 := by norm_num
  cases x with
  | nan => rfl
  | ninf => rfl
  | inf =>
      norm_num [RFloat.sqrtF, RFloat.div, RFloat.mul, RFloat.isNanOrInf]
  | fin a =>
      by_cases ha : a < 0
      · simp [RFloat.sqrtF, ha, RFloat.div, RFloat.mul, RFloat.isNanOrInf]
      · by_cases hs : Real.sqrt a = 0
        · simp [RFloat.sqrtF, ha, hs, RFloat.div, RFloat.mul, RFloat.isNanOrInf]
        · have hs' : 0 < Real.sqrt a :=
            lt_of_le_of_ne (Real.sqrt_nonneg a) (Ne.symm hs)
          simp [RFloat.sqrtF, ha, hs, hs', RFloat.div, RFloat.mul, h100, h100',
            RFloat.isNanOrInf]

/-- The CV pipeline ends in NaN or an infinity whenever the mean square
is already special, whatever the grand mean. -/
theorem cvPipeline_special_of_special_ms (m : RFloat)
    (h : m.isNanOrInf = true) (gm : ℝ) :
    (RFloat.mul (RFloat.div m.sqrtF (RFloat.fin gm)) (RFloat.fin 100)).isNanOrInf
      = true := by
  have h100 : ¬ ((100 : ℝ) = 0) := by norm_num
  have h100' : (0 : ℝ) < 100 := by norm_num
  cases m with
  | fin a => simp [RFloat.isNanOrInf] at h
  | nan => rfl
  | ninf => rfl
  | inf =>
      by_cases hg : 0 ≤ gm
      · simp [RFloat.sqrtF, RFloat.div, hg, RFloat.mul, h100, h100',
          RFloat.isNanOrInf]
      · simp [RFloat.sqrtF, RFloat.div, hg, RFloat.mul, h100, h100',
          RFloat.isNanOrInf]

/- ------------------------------------------------------------------ -/
/- Auxiliary facts                                                      -/
/- ------------------------------------------------------------------ -/

/-- Boolean list containment agrees with membership (for strings). -/
theorem string_contains_iff (l : List String) (a : String) :
    l.contains a = true ↔ a ∈ l := by
  simp [List.contains_iff_exists_mem_beq]

/- ------------------------------------------------------------------ -/
/- Claim theorems                                                       -/
/- ------------------------------------------------------------------ -/

/-- C3 (counterexample): on a table with columns Trt and Rep only, asking
for response column Y1 makes `run_rcbd_anova` raise, but the error
message is a fixed string that does not contain the offending field name
Y1. -/
theorem rcbd_missing_column_message_lacks_field_name :
    rcbdColumnCheck dfTrtRepOnly "Trt" "Rep" "Y1" = Except.error rcbdColumnErrMsg
    ∧ ¬ ("Y1".toList <:+: rcbdColumnErrMsg.toList) := by
  constructor
  · rfl
  · decide

/-- C3 (amended): for every table and any choice of the three field
names, if at least one of treatment, block or response is absent from the
table's columns, `run_rcbd_anova` fails with an error; the error carries
the fixed message "One or more columns not found in DataFrame" and does
not identify the offending field name(s). -/
theorem rcbd_missing_column_raises (df : DataFrame) (t r y : String)
    (h : t ∉ df.columns ∨ r ∉ df.columns ∨ y ∉ df.columns) :
    rcbdColumnCheck df t r y = Except.error rcbdColumnErrMsg := by
  unfold rcbdColumnCheck
  rw [if_pos]
  simp only [Bool.or_eq_true, Bool.not_eq_true']
  rcases h with h | h | h
  · exact Or.inl (Or.inl (Bool.eq_false_iff.mpr
      fun hc => h ((string_contains_iff _ _).mp hc)))
  · exact Or.inl (Or.inr (Bool.eq_false_iff.mpr
      fun hc => h ((string_contains_iff _ _).mp hc)))
  · exact Or.inr (Bool.eq_false_iff.mpr
      fun hc => h ((string_contains_iff _ _).mp hc))

/-- C3 (witness): the amended theorem applied to the concrete two-column
table with missing response Y1. -/
theorem rcbd_missing_column_raises_witness :
    ("Y1" ∉ dfTrtRepOnly.columns ∨ "Rep" ∉ dfTrtRepOnly.columns
      ∨ "Y1" ∉ dfTrtRepOnly.columns)
    ∧ rcbdColumnCheck dfTrtRepOnly "Trt" "Rep" "Y1" = Except.error rcbdColumnErrMsg :=
  ⟨Or.inr (Or.inr (by decide)),
   rcbd_missing_column_raises dfTrtRepOnly "Trt" "Rep" "Y1"
     (Or.inr (Or.inr (by decide)))⟩

/-- C4 (counterexample): with grand mean zero but one residual degree of
freedom (residual SS 1, two replications, alpha 0.05), the returned CV
is infinite yet the returned LSD is an ordinary finite float — so the
claim that in every numerically degenerate case "the dependent fields CV
and LSD are NaN or infinite" fails on its grand-mean-zero branch. -/
theorem rcbd_zero_grand_mean_lsd_stays_finite :
    (rcbdDerivedStats 1 1 0 2 (1/20)).cv.isNanOrInf = true
    ∧ (rcbdDerivedStats 1 1 0 2 (1/20)).lsd.isNanOrInf = false := by
  constructor
  · show (RFloat.mul
      (RFloat.div (RFloat.div (RFloat.fin ((1 : ℚ) : ℝ))
          (RFloat.fin ((1 : ℤ) : ℝ))).sqrtF
        (RFloat.fin ((0 : ℚ) : ℝ)))
      (RFloat.fin 100)).isNanOrInf = true
    rw [show ((0 : ℚ) : ℝ) = 0 by norm_num]
    exact cvPipeline_special_of_zero_mean _
  · show (RFloat.mul (tPpfFloat 1 (1 - (1/20 : ℝ) / 2))
      (RFloat.div (RFloat.mul (RFloat.fin 2)
          (RFloat.div (RFloat.fin ((1 : ℚ) : ℝ)) (RFloat.fin ((1 : ℤ) : ℝ))))
        (RFloat.fin ((2 : ℕ) : ℝ))).sqrtF).isNanOrInf = false
    have h1 : RFloat.div (RFloat.fin ((1 : ℚ) : ℝ)) (RFloat.fin ((1 : ℤ) : ℝ))
        = RFloat.fin (((1 : ℚ) : ℝ) / ((1 : ℤ) : ℝ)) := by
      simp [RFloat.div]
    rw [h1]
    have h2 : RFloat.mul (RFloat.fin 2) (RFloat.fin (((1 : ℚ) : ℝ) / ((1 : ℤ) : ℝ)))
        = RFloat.fin (2 * (((1 : ℚ) : ℝ) / ((1 : ℤ) : ℝ))) := rfl
    rw [h2]
    have h3 : RFloat.div (RFloat.fin (2 * (((1 : ℚ) : ℝ) / ((1 : ℤ) : ℝ))))
        (RFloat.fin ((2 : ℕ) : ℝ))
        = RFloat.fin (2 * (((1 : ℚ) : ℝ) / ((1 : ℤ) : ℝ)) / ((2 : ℕ) : ℝ)) := by
      simp [RFloat.div]
    rw [h3]
    have h4 : (RFloat.fin
        (2 * (((1 : ℚ) : ℝ) / ((1 : ℤ) : ℝ)) / ((2 : ℕ) : ℝ))).sqrtF
        = RFloat.fin (Real.sqrt (2 * (((1 : ℚ) : ℝ) / ((1 : ℤ) : ℝ)) / ((2 : ℕ) : ℝ))) := by
      rw [RFloat.sqrtF]
      rw [if_neg]
      norm_num
    rw [h4]
    have h5 : tPpfFloat 1 (1 - (1/20 : ℝ) / 2)
        = RFloat.fin (tPpf ((1 : ℤ) : ℝ) (1 - (1/20 : ℝ) / 2)) := by
      rw [tPpfFloat, if_pos]
      norm_num
    rw [h5]
    rfl

/-- C4 (amended): when the design is numerically degenerate,
`run_rcbd_anova` does not raise — the derived statistics of anova.py
lines 67, 75, 86-88 are evaluated in IEEE float arithmetic by the total
function `rcbdDerivedStats` and returned with the affected dependent
fields special: a zero grand mean makes CV NaN or infinite, a zero
residual degree count makes CV NaN or infinite, and any non-positive
residual degree count makes LSD NaN (the t critical value is NaN there);
with a zero grand mean but positive residual degrees of freedom, LSD
remains an ordinary finite value. -/
theorem rcbd_degenerate_returns_specials (residual_ss : ℚ) (residual_df : ℤ)
    (grand_mean : ℚ) (num_reps : ℕ) (alpha : ℝ) :
    (grand_mean = 0 →
      (rcbdDerivedStats residual_ss residual_df grand_mean num_reps
        alpha).cv.isNanOrInf = true)
    ∧ (residual_df = 0 →
      (rcbdDerivedStats residual_ss residual_df grand_mean num_reps
        alpha).cv.isNanOrInf = true)
    ∧ (residual_df ≤ 0 →
      (rcbdDerivedStats residual_ss residual_df grand_mean num_reps
        alpha).lsd = RFloat.nan) := by
  refine ⟨?_, ?_, ?_⟩
  · intro hg
    subst hg
    show (RFloat.mul
      (RFloat.div (RFloat.div (RFloat.fin ((residual_ss : ℚ) : ℝ))
          (RFloat.fin ((residual_df : ℤ) : ℝ))).sqrtF
        (RFloat.fin ((0 : ℚ) : ℝ)))
      (RFloat.fin 100)).isNanOrInf = true
    rw [show ((0 : ℚ) : ℝ) = 0 by norm_num]
    exact cvPipeline_special_of_zero_mean _
  · intro hd
    subst hd
    show (RFloat.mul
      (RFloat.div (RFloat.div (RFloat.fin ((residual_ss : ℚ) : ℝ))
          (RFloat.fin ((0 : ℤ) : ℝ))).sqrtF
        (RFloat.fin ((grand_mean : ℚ) : ℝ)))
      (RFloat.fin 100)).isNanOrInf = true
    rw [show ((0 : ℤ) : ℝ) = 0 by norm_num]
    exact cvPipeline_special_of_special_ms _ (rfloat_div_fin_zero_special _) _
  · intro hd
    show RFloat.mul (tPpfFloat residual_df (1 - alpha / 2)) _ = RFloat.nan
    rw [tPpfFloat, if_neg (not_lt.mpr hd)]
    exact rfloat_mul_nan_left _

/-- C4 (witness): the amended theorem at the degenerate instance of a
single-cell design — residual SS 0, residual df 0, grand mean 5, one
replication, alpha 0.05: CV comes out NaN or infinite and LSD comes out
NaN, with no exception raised. -/
theorem rcbd_degenerate_returns_specials_witness :
    (rcbdDerivedStats 0 0 5 1 (1/20)).cv.isNanOrInf = true
    ∧ (rcbdDerivedStats 0 0 5 1 (1/20)).lsd = RFloat.nan :=
  ⟨(rcbd_degenerate_returns_specials 0 0 5 1 (1/20)).2.1 rfl,
   (rcbd_degenerate_returns_specials 0 0 5 1 (1/20)).2.2 le_rfl⟩

/-- C5: when at least one of the three named columns is missing,
`validate_rcbd_data` returns at once with ok = false and exactly one
message per missing field, each naming that field; the null and
numeric-type checks are skipped (the result depends only on the column
names).  The function is total: it always returns a (bool, message)
pair. -/
theorem validate_rcbd_data_missing_columns (df : DataFrame) (t r y : String)
    (h : ([t, r, y].filter (fun c => !(df.columns.contains c))) ≠ []) :
    validate_rcbd_data df t r y
      = (false, String.intercalate "\n"
          (([t, r, y].filter (fun c => !(df.columns.contains c))).map missingColMsg))
    ∧ ∀ c ∈ [t, r, y].filter (fun c => !(df.columns.contains c)),
        c.toList <:+: (missingColMsg c).toList := by
  constructor
  · unfold validate_rcbd_data
    rw [if_pos]
    intro hmap
    exact h (List.map_eq_nil_iff.mp hmap)
  · intro c _
    show c.toList <:+: ("❌ คอลัมน์ '" ++ c ++ "' ไม่พบในข้อมูล").toList
    have : ("❌ คอลัมน์ '" ++ c ++ "' ไม่พบในข้อมูล").toList
        = "❌ คอลัมน์ '".toList ++ c.toList ++ "' ไม่พบในข้อมูล".toList := rfl
    rw [this]
    exact List.infix_append _ _ _

/-- C5 (witness): on the concrete table lacking a Y1 column, the
validator returns ok = false with a message containing "Y1". -/
theorem validate_rcbd_data_missing_columns_witness :
    (["Trt", "Rep", "Y1"].filter
        (fun c => !(dfTrtRepOnly.columns.contains c))) ≠ []
    ∧ (validate_rcbd_data dfTrtRepOnly "Trt" "Rep" "Y1"
        = (false, String.intercalate "\n"
            ((["Trt", "Rep", "Y1"].filter
              (fun c => !(dfTrtRepOnly.columns.contains c))).map missingColMsg))
      ∧ ∀ c ∈ ["Trt", "Rep", "Y1"].filter
            (fun c => !(dfTrtRepOnly.columns.contains c)),
          c.toList <:+: (missingColMsg c).toList)
    ∧ (validate_rcbd_data dfTrtRepOnly "Trt" "Rep" "Y1").1 = false
    ∧ "Y1".toList <:+: (validate_rcbd_data dfTrtRepOnly "Trt" "Rep" "Y1").2.toList :=
  ⟨by decide,
   validate_rcbd_data_missing_columns dfTrtRepOnly "Trt" "Rep" "Y1" (by decide),
   by decide, by decide⟩

/-- C6: `get_cv_quality` partitions the CV axis into exactly four bands
with strict-less-than boundaries; the boundary values 10, 15 and 20 fall
into the weaker band. -/
theorem get_cv_quality_bands :
    (∀ cv : ℚ,
      (get_cv_quality cv = "ดีเยี่ยม (Excellent)" ↔ cv < 10)
      ∧ (get_cv_quality cv = "ดี (Good)" ↔ 10 ≤ cv ∧ cv < 15)
      ∧ (get_cv_quality cv = "ยอมรับได้ (Acceptable)" ↔ 15 ≤ cv ∧ cv < 20)
      ∧ (get_cv_quality cv = "ต่ำ (Poor)" ↔ 20 ≤ cv))
    ∧ get_cv_quality 10 = "ดี (Good)"
    ∧ get_cv_quality 15 = "ยอมรับได้ (Acceptable)"
    ∧ get_cv_quality 20 = "ต่ำ (Poor)" := by
  refine ⟨fun cv => ?_, by decide, by decide, by decide⟩
  unfold get_cv_quality
  split_ifs with h1 h2 h3 <;>
    refine ⟨?_, ?_, ?_, ?_⟩ <;>
    simp_all <;>
    first
      | linarith
      | (intro h; linarith)

/-- C10: `get_significance_stars` uses strict thresholds 0.001, 0.01 and
0.05, each boundary value falling into the weaker band, and a NaN
p-value (every IEEE comparison false) yields "ns". -/
theorem get_significance_stars_bands :
    (∀ p : ℚ,
      (get_significance_stars (PFloat.val p) = "***" ↔ p < 1/1000)
      ∧ (get_significance_stars (PFloat.val p) = "**" ↔ 1/1000 ≤ p ∧ p < 1/100)
      ∧ (get_significance_stars (PFloat.val p) = "*" ↔ 1/100 ≤ p ∧ p < 1/20)
      ∧ (get_significance_stars (PFloat.val p) = "ns" ↔ 1/20 ≤ p))
    ∧ get_significance_stars (PFloat.val (1/1000)) = "**"
    ∧ get_significance_stars (PFloat.val (1/100)) = "*"
    ∧ get_significance_stars (PFloat.val (1/20)) = "ns"
    ∧ get_significance_stars PFloat.nan = "ns" := by
  refine ⟨fun p => ?_,
    by norm_num [get_significance_stars, PFloat.ltc],
    by norm_num [get_significance_stars, PFloat.ltc],
    by norm_num [get_significance_stars, PFloat.ltc],
    rfl⟩
  unfold get_significance_stars
  simp only [PFloat.ltc]
  split_ifs with h1 h2 h3 <;>
    refine ⟨?_, ?_, ?_, ?_⟩ <;>
    simp_all <;>
    first
      | linarith
      | (intro h; linarith)

/-- C9: `is_balanced` is true exactly when the row count equals the
product of the distinct-value counts of the two designated columns, and
on an empty table (zero rows, columns present) `get_design_info` returns
all-zero counts with `is_balanced` true, without raising. -/
theorem get_design_info_is_balanced_iff (df : DataFrame) (tcol rcol : String)
    (ht : tcol ∈ df.columns) (hr : rcol ∈ df.columns) :
    ((get_design_info df tcol rcol).is_balanced = true
      ↔ (get_design_info df tcol rcol).total_plots
          = (get_design_info df tcol rcol).num_treatments
            * (get_design_info df tcol rcol).num_reps)
    ∧ get_design_info (emptyDesignDf tcol rcol) tcol rcol = ⟨0, 0, 0, 0, true⟩ := by
  constructor
  · simp [get_design_info]
  · cases h : tcol == rcol <;>
      simp [get_design_info, emptyDesignDf, DataFrame.get, DataFrame.nRows,
        Column.nunique, List.find?, h]

/-- C9 (witness): the theorem applied to the concrete balanced 2-by-2
scenario table. -/
theorem get_design_info_is_balanced_iff_witness :
    ("T" ∈ dfScenario.columns ∧ "R" ∈ dfScenario.columns)
    ∧ (((get_design_info dfScenario "T" "R").is_balanced = true
        ↔ (get_design_info dfScenario "T" "R").total_plots
            = (get_design_info dfScenario "T" "R").num_treatments
              * (get_design_info dfScenario "T" "R").num_reps)
      ∧ get_design_info (emptyDesignDf "T" "R") "T" "R" = ⟨0, 0, 0, 0, true⟩)
    ∧ get_design_info dfScenario "T" "R" = ⟨2, 2, 4, 4, true⟩ :=
  ⟨⟨by decide, by decide⟩,
   get_design_info_is_balanced_iff dfScenario "T" "R" (by decide) (by decide),
   by decide⟩

/-- C1: for every balanced RCBD table with `T >= 2` treatments and
`R >= 2` blocks, `run_rcbd_anova` reports treatment, block and residual
degrees of freedom `T-1`, `R-1` and `(T-1)(R-1)`, and the three returned
sums of squares add up — exactly, over the rationals — to the total sum
of squares `Σ (y - grand_mean)^2`; the Total row of the formatted table
carries that same value. -/
theorem rcbd_balanced_df_and_ss_partition (T R : ℕ) (y : Fin T → Fin R → ℚ)
    (alpha : ℝ) (hT : 2 ≤ T) (hR : 2 ≤ R) :
    (run_rcbd_anova T R y alpha).treatment_df = (T : ℤ) - 1
    ∧ (run_rcbd_anova T R y alpha).rep_df = (R : ℤ) - 1
    ∧ (run_rcbd_anova T R y alpha).residual_df = ((T : ℤ) - 1) * ((R : ℤ) - 1)
    ∧ (run_rcbd_anova T R y alpha).treatment_ss + (run_rcbd_anova T R y alpha).rep_ss
        + (run_rcbd_anova T R y alpha).residual_ss = ssTotal T R y
    ∧ (run_rcbd_anova T R y alpha).total_ss = ssTotal T R y := by
  have hT0 : 0 < T := lt_of_lt_of_le two_pos hT
  have hR0 : 0 < R := lt_of_lt_of_le two_pos hR
  have hpart := ssPartition T R hT0 hR0 y
  refine ⟨rfl, rfl, ?_, ?_, ?_⟩
  · show (T : ℤ) * R - T - R + 1 = ((T : ℤ) - 1) * ((R : ℤ) - 1)
    ring
  · exact hpart
  · show ssResidual T R y + ssTreatment T R y + ssBlock T R y = ssTotal T R y
    linarith

/-- C1 (witness): the theorem applied to the spec's 2-by-2 scenario
values. -/
theorem rcbd_balanced_df_and_ss_partition_witness :
    ((2 : ℕ) ≤ 2 ∧ (2 : ℕ) ≤ 2)
    ∧ ((run_rcbd_anova 2 2 ![![45.2, 46.1], ![48.5, 49.3]] (1/20)).treatment_df
          = ((2 : ℕ) : ℤ) - 1
      ∧ (run_rcbd_anova 2 2 ![![45.2, 46.1], ![48.5, 49.3]] (1/20)).rep_df
          = ((2 : ℕ) : ℤ) - 1
      ∧ (run_rcbd_anova 2 2 ![![45.2, 46.1], ![48.5, 49.3]] (1/20)).residual_df
          = (((2 : ℕ) : ℤ) - 1) * (((2 : ℕ) : ℤ) - 1)
      ∧ (run_rcbd_anova 2 2 ![![45.2, 46.1], ![48.5, 49.3]] (1/20)).treatment_ss
          + (run_rcbd_anova 2 2 ![![45.2, 46.1], ![48.5, 49.3]] (1/20)).rep_ss
          + (run_rcbd_anova 2 2 ![![45.2, 46.1], ![48.5, 49.3]] (1/20)).residual_ss
          = ssTotal 2 2 ![![45.2, 46.1], ![48.5, 49.3]]
      ∧ (run_rcbd_anova 2 2 ![![45.2, 46.1], ![48.5, 49.3]] (1/20)).total_ss
          = ssTotal 2 2 ![![45.2, 46.1], ![48.5, 49.3]]) :=
  ⟨⟨le_refl 2, le_refl 2⟩,
   rcbd_balanced_df_and_ss_partition 2 2 ![![45.2, 46.1], ![48.5, 49.3]]
     (1/20) (le_refl 2) (le_refl 2)⟩

/-- C2 (counterexample): the dictionary returned by `run_crd_anova`
contains no "lsd" entry, contradicting the claim that the CRD result
contains an LSD value. -/
theorem crd_result_lacks_lsd_key : ¬ ("lsd" ∈ crdResultKeys) := by
  decide

/-- C2 (amended): `run_crd_anova` is the single-factor variant of
`run_rcbd_anova`: it reports treatment degrees of freedom `T-1` and
residual degrees of freedom `N-T`, partitions the total sum of squares
into Treatment + Residual only (exactly, over the rationals), and shares
the CV and treatment-means formulas of the RCBD engine (with the block
count replaced by the per-treatment replicate count inside the shared
mean/std/SE computation); however its result contains no LSD and no
SE-of-difference value. -/
theorem crd_single_factor_engine (T : ℕ) (n : Fin T → ℕ)
    (y : (t : Fin T) → Fin (n t) → ℚ) (alpha : ℝ) (hn : ∀ t, 1 ≤ n t)
    (T' R' : ℕ) (y' : Fin T' → Fin R' → ℚ) :
    (run_crd_anova T n y alpha).treatment_df = (T : ℤ) - 1
    ∧ (run_crd_anova T n y alpha).residual_df_table = (crdN T n : ℤ) - T
    ∧ (run_crd_anova T n y alpha).treatment_ss + (run_crd_anova T n y alpha).residual_ss
        = crdSsTotal T n y
    ∧ (run_crd_anova T n y alpha).cv
        = cvFormula ((run_crd_anova T n y alpha).mse : ℝ)
            ((run_crd_anova T n y alpha).grand_mean : ℝ)
    ∧ (run_crd_anova T n y alpha).treatment_means
        = (fun t => meansRow (List.ofFn (y t)))
    ∧ (run_rcbd_anova T' R' y' alpha).cv
        = cvFormula ((run_rcbd_anova T' R' y' alpha).mse : ℝ)
            ((run_rcbd_anova T' R' y' alpha).grand_mean : ℝ)
    ∧ (run_rcbd_anova T' R' y' alpha).treatment_means
        = (fun t => meansRow (List.ofFn (y' t)))
    ∧ "lsd" ∉ crdResultKeys ∧ "se_diff" ∉ crdResultKeys :=
  ⟨rfl, rfl, crdSsPartition T n y, rfl, rfl, rfl, rfl, by decide, by decide⟩

/-- C2 (witness): the amended theorem applied to a concrete balanced
one-factor layout with two treatments of two replicates each. -/
theorem crd_single_factor_engine_witness :
    (∀ t : Fin 2, 1 ≤ (fun _ : Fin 2 => 2) t)
    ∧ ((run_crd_anova 2 (fun _ => 2) (fun t i => ![![3, 5], ![4, 8]] t i)
          (1/20)).treatment_df = ((2 : ℕ) : ℤ) - 1
      ∧ (run_crd_anova 2 (fun _ => 2) (fun t i => ![![3, 5], ![4, 8]] t i)
          (1/20)).residual_df_table = (crdN 2 (fun _ => 2) : ℤ) - 2
      ∧ (run_crd_anova 2 (fun _ => 2) (fun t i => ![![3, 5], ![4, 8]] t i)
            (1/20)).treatment_ss
          + (run_crd_anova 2 (fun _ => 2) (fun t i => ![![3, 5], ![4, 8]] t i)
            (1/20)).residual_ss
          = crdSsTotal 2 (fun _ => 2) (fun t i => ![![3, 5], ![4, 8]] t i)
      ∧ (run_crd_anova 2 (fun _ => 2) (fun t i => ![![3, 5], ![4, 8]] t i)
            (1/20)).cv
          = cvFormula ((run_crd_anova 2 (fun _ => 2)
              (fun t i => ![![3, 5], ![4, 8]] t i) (1/20)).mse : ℝ)
            ((run_crd_anova 2 (fun _ => 2)
              (fun t i => ![![3, 5], ![4, 8]] t i) (1/20)).grand_mean : ℝ)
      ∧ (run_crd_anova 2 (fun _ => 2) (fun t i => ![![3, 5], ![4, 8]] t i)
            (1/20)).treatment_means
          = (fun t => meansRow (List.ofFn ((fun t i => ![![3, 5], ![4, 8]] t i) t)))
      ∧ (run_rcbd_anova 2 2 ![![1, 2], ![3, 4]] (1/20)).cv
          = cvFormula ((run_rcbd_anova 2 2 ![![1, 2], ![3, 4]] (1/20)).mse : ℝ)
            ((run_rcbd_anova 2 2 ![![1, 2], ![3, 4]] (1/20)).grand_mean : ℝ)
      ∧ (run_rcbd_anova 2 2 ![![1, 2], ![3, 4]] (1/20)).treatment_means
          = (fun t => meansRow (List.ofFn (![![1, 2], ![3, 4]] t)))
      ∧ "lsd" ∉ crdResultKeys ∧ "se_diff" ∉ crdResultKeys) :=
  ⟨fun _ => by norm_num,
   crd_single_factor_engine 2 (fun _ => 2) (fun t i => ![![3, 5], ![4, 8]] t i)
     (1/20) (fun _ => by norm_num) 2 2 ![![1, 2], ![3, 4]]⟩

/-- C7: the RCBD engine computes `se_diff = sqrt(2 * MSE / R)` with `R`
the number of blocks and `lsd = t_ppf(1 - alpha/2, residual_df) * se_diff`
(the same formulas as the standalone `calculate_lsd`), and for
`MSE >= 0`, `reps >= 1`, `residual_df >= 1` and `alpha` in `(0,1)` both
quantities are non-negative. -/
theorem lsd_se_diff_formulas_nonneg (T R : ℕ) (y : Fin T → Fin R → ℚ)
    (alpha mse : ℝ) (reps df : ℕ)
    (hT : 2 ≤ T) (hR : 2 ≤ R) (ha0 : 0 < alpha) (ha1 : alpha < 1)
    (hmse : 0 ≤ mse) (hreps : 1 ≤ reps) (hdf : 1 ≤ df) :
    (run_rcbd_anova T R y alpha).se_diff
        = Real.sqrt (2 * ((run_rcbd_anova T R y alpha).mse : ℝ)
            / ((run_rcbd_anova T R y alpha).num_reps : ℝ))
    ∧ (run_rcbd_anova T R y alpha).lsd
        = tPpf ((T : ℝ) * R - T - R + 1) (1 - alpha / 2)
            * (run_rcbd_anova T R y alpha).se_diff
    ∧ 0 ≤ (run_rcbd_anova T R y alpha).se_diff
    ∧ 0 ≤ (run_rcbd_anova T R y alpha).lsd
    ∧ 0 ≤ seDiff mse reps
    ∧ 0 ≤ calculate_lsd mse reps df alpha := by
  have hp : 1 / 2 < 1 - alpha / 2 := by linarith
  have hTR : (1 : ℝ) ≤ (T : ℝ) * R - T - R + 1 := by
    have h2T : (2 : ℝ) ≤ (T : ℝ) := by exact_mod_cast hT
    have h2R : (2 : ℝ) ≤ (R : ℝ) := by exact_mod_cast hR
    nlinarith
  have hdf1 : (1 : ℝ) ≤ (df : ℝ) := by exact_mod_cast hdf
  refine ⟨rfl, rfl, Real.sqrt_nonneg _, ?_, Real.sqrt_nonneg _, ?_⟩
  · exact mul_nonneg (tPpf_nonneg _ hTR _ hp) (Real.sqrt_nonneg _)
  · exact mul_nonneg (tPpf_nonneg _ hdf1 _ hp) (Real.sqrt_nonneg _)

/-- C7 (witness): the theorem applied to a concrete 2-by-2 layout with
`alpha = 0.05`, `mse = 0`, one replicate and one residual degree of
freedom. -/
theorem lsd_se_diff_formulas_nonneg_witness :
    ((2 : ℕ) ≤ 2 ∧ (2 : ℕ) ≤ 2 ∧ (0 : ℝ) < 1/20 ∧ (1/20 : ℝ) < 1
      ∧ (0 : ℝ) ≤ 0 ∧ (1 : ℕ) ≤ 1 ∧ (1 : ℕ) ≤ 1)
    ∧ ((run_rcbd_anova 2 2 ![![1, 2], ![3, 4]] (1/20)).se_diff
          = Real.sqrt (2 * ((run_rcbd_anova 2 2 ![![1, 2], ![3, 4]] (1/20)).mse : ℝ)
              / ((run_rcbd_anova 2 2 ![![1, 2], ![3, 4]] (1/20)).num_reps : ℝ))
      ∧ (run_rcbd_anova 2 2 ![![1, 2], ![3, 4]] (1/20)).lsd
          = tPpf (((2 : ℕ) : ℝ) * (2 : ℕ) - (2 : ℕ) - (2 : ℕ) + 1) (1 - (1/20) / 2)
              * (run_rcbd_anova 2 2 ![![1, 2], ![3, 4]] (1/20)).se_diff
      ∧ 0 ≤ (run_rcbd_anova 2 2 ![![1, 2], ![3, 4]] (1/20)).se_diff
      ∧ 0 ≤ (run_rcbd_anova 2 2 ![![1, 2], ![3, 4]] (1/20)).lsd
      ∧ 0 ≤ seDiff 0 1
      ∧ 0 ≤ calculate_lsd 0 1 1 (1/20)) :=
  ⟨⟨le_refl 2, le_refl 2, by norm_num, by norm_num, le_refl 0, le_refl 1, le_refl 1⟩,
   lsd_se_diff_formulas_nonneg 2 2 ![![1, 2], ![3, 4]] (1/20) 0 1 1
     (le_refl 2) (le_refl 2) (by norm_num) (by norm_num) (le_refl 0)
     (le_refl 1) (le_refl 1)⟩

/-- C8: in the results of both engines, `is_significant` is exactly the
strict comparison `p_treatment < alpha`, for every table and every
alpha. -/
theorem is_significant_strict (T R : ℕ) (y : Fin T → Fin R → ℚ)
    (T' : ℕ) (n : Fin T' → ℕ) (y' : (t : Fin T') → Fin (n t) → ℚ) (alpha : ℝ) :
    ((run_rcbd_anova T R y alpha).is_significant
        ↔ (run_rcbd_anova T R y alpha).p_treatment < alpha)
    ∧ ((run_crd_anova T' n y' alpha).is_significant
        ↔ (run_crd_anova T' n y' alpha).p_treatment < alpha) :=
  ⟨Iff.rfl, Iff.rfl⟩

end StarTH
